import Mathlib

/-
Shallow embedding of the weather-station data pipeline
(samthomson/weather, src/hooks/useWeatherData.ts, src/hooks/useWeatherStations.ts,
src/components/WeatherChart.tsx).  JavaScript numbers are modelled as exact
rationals; JS undefined and NaN are modelled with Option layers; events are
carried as values (the rawEvent JSON snapshot is modelled by carrying the
event itself).
-/

namespace Weather

/-- Known sensor types we support (useWeatherData.ts KNOWN_SENSORS). -/
def KNOWN_SENSORS : List String :=
  ["temp", "humidity", "pm1", "pm25", "pm10", "air_quality", "pressure", "light", "rain"]

/-- Non-sensor tags to ignore (useWeatherData.ts IGNORED_TAGS). -/
def IGNORED_TAGS : List String := ["a", "s", "e", "p", "d", "alt", "client"]

/-- A Nostr event as consumed by the pipeline: id, created_at (integer
seconds) and the tag list.  Only the fields the pipeline reads are kept. -/
structure NostrEvent where
  id : String
  created_at : Int
  tags : List (List String)
deriving DecidableEq, Repr

/-- Digit string to a natural number. -/
def digitsToNat (cs : List Char) : Nat :=
  cs.foldl (fun n c => 10 * n + (c.toNat - 48)) 0

/-- Leading whitespace predicate used by the float parser. -/
def isSpaceChar (c : Char) : Bool :=
  c == ' ' || c == '\t' || c == '\n' || c == '\r'

/-- Exponent part of a JS float literal: optional sign then digits; an
unusable exponent contributes a factor of one (JS parseFloat stops there). -/
def parseExpPart (cs : List Char) : Int :=
  let (sign, cs) : Int × List Char :=
    match cs with
    | '-' :: rest => (-1, rest)
    | '+' :: rest => (1, rest)
    | _ => (1, cs)
  let ds := cs.takeWhile Char.isDigit
  if ds.isEmpty then 0 else sign * (digitsToNat ds : Int)

/-- Syntactic part of the JavaScript parseFloat builtin: optional
whitespace, optional sign, digits with an optional dot and an optional
exponent; the longest valid numeric head is taken and none is returned when
no number can be read (JS NaN).  Returns the sign, the integer digits, the
fraction digits and the exponent. -/
def floatScan (s : String) : Option (Bool × List Char × List Char × Int) :=
  let cs := s.data.dropWhile isSpaceChar
  let (neg, cs) : Bool × List Char :=
    match cs with
    | '-' :: rest => (true, rest)
    | '+' :: rest => (false, rest)
    | _ => (false, cs)
  let intPart := cs.takeWhile Char.isDigit
  let cs1 := cs.dropWhile Char.isDigit
  let (fracPart, cs2) : List Char × List Char :=
    match cs1 with
    | '.' :: rest => (rest.takeWhile Char.isDigit, rest.dropWhile Char.isDigit)
    | _ => ([], cs1)
  if intPart.isEmpty && fracPart.isEmpty then none
  else
    let expo : Int :=
      match cs2 with
      | c :: rest => if c == 'e' || c == 'E' then parseExpPart rest else 0
      | [] => 0
    some (neg, intPart, fracPart, expo)

/-- Numeric value of a scanned float. -/
def floatValue (p : Bool × List Char × List Char × Int) : ℚ :=
  (if p.1 then (-1 : ℚ) else 1) *
    ((digitsToNat p.2.1 : ℚ) + (digitsToNat p.2.2.1 : ℚ) / 10 ^ p.2.2.1.length) *
    (if 0 ≤ p.2.2.2 then (10 : ℚ) ^ p.2.2.2.toNat else 1 / 10 ^ (-p.2.2.2).toNat)

/-- Model of the JavaScript parseFloat builtin on the decimal fragment it
accepts; none models NaN. -/
def jsParseFloat (s : String) : Option ℚ :=
  (floatScan s).map floatValue

/-- Model of the JavaScript toFixed(1) rendering for the nonnegative values
this pipeline formats: round to one decimal place, half away from zero, and
print with exactly one digit after the point. -/
def toFixed1 (q : ℚ) : String :=
  let n : Int := ⌊q * 10 + 1 / 2⌋
  if n < 0 then "-" ++ toString ((-n).toNat / 10) ++ "." ++ toString ((-n).toNat % 10)
  else toString (n.toNat / 10) ++ "." ++ toString (n.toNat % 10)

/-- The partial reading built by parseWeatherTags: the nine known channels
(absent = undefined), the dynamically named extra channels (in JS these live
as extra keys on the same object; modelled as an association list in key
insertion order), and the sensorModels object (none while the key is not yet
present on the object). -/
structure PartialReading where
  temperature : Option ℚ := none
  humidity : Option ℚ := none
  pm1 : Option ℚ := none
  pm25 : Option ℚ := none
  pm10 : Option ℚ := none
  air_quality : Option ℚ := none
  pressure : Option ℚ := none
  light : Option ℚ := none
  rain : Option ℚ := none
  extra : List (String × ℚ) := []
  sensorModels : Option (List (String × String)) := none
deriving DecidableEq, Repr

/-- JS object-key update: overwrite in place when the key exists, append
otherwise (rational values). -/
def setExtra (l : List (String × ℚ)) (k : String) (v : ℚ) : List (String × ℚ) :=
  if l.any (fun p => p.1 = k) then l.map (fun p => if p.1 = k then (k, v) else p)
  else l ++ [(k, v)]

/-- JS object-key update: overwrite in place when the key exists, append
otherwise (string values). -/
def setModel (l : List (String × String)) (k v : String) : List (String × String) :=
  if l.any (fun p => p.1 = k) then l.map (fun p => if p.1 = k then (k, v) else p)
  else l ++ [(k, v)]

/-- First entry of a tag (JS destructuring; undefined on a short tag is
modelled as the empty string, which is ignored-list-free and
parseFloat-fails just like undefined). -/
def tagName (tag : List String) : String := tag.getD 0 ""

/-- Second entry of a tag (the value field). -/
def tagValue (tag : List String) : String := tag.getD 1 ""

/-- Third entry of a tag (the optional model field; empty string models
undefined, and both are falsy). -/
def tagModel (tag : List String) : String := tag.getD 2 ""

/-- One iteration of the parseWeatherTags loop.  The accumulator is the
reading under construction, the sensorTypes array and the sensorModels
object. -/
def applyTag (st : PartialReading × List String × List (String × String))
    (tag : List String) : PartialReading × List String × List (String × String) :=
  let name := tagName tag
  let value := tagValue tag
  let model := tagModel tag
  if name ∈ IGNORED_TAGS then st
  else
    match jsParseFloat value with
    | none => st
    | some numValue =>
      let sensorTypes := st.2.1 ++ [name]
      let sensorModels := if model ≠ "" then setModel st.2.2 name model else st.2.2
      let reading :=
        if name = "temp" then { st.1 with temperature := some numValue }
        else if name = "humidity" then { st.1 with humidity := some numValue }
        else if name = "pm1" then { st.1 with pm1 := some numValue }
        else if name = "pm25" then { st.1 with pm25 := some numValue }
        else if name = "pm10" then { st.1 with pm10 := some numValue }
        else if name = "air_quality" then { st.1 with air_quality := some numValue }
        else if name = "pressure" then { st.1 with pressure := some numValue }
        else if name = "light" then { st.1 with light := some numValue }
        else if name = "rain" then { st.1 with rain := some numValue }
        else { st.1 with extra := setExtra st.1.extra name numValue }
      (reading, sensorTypes, sensorModels)

/-- parseWeatherTags (useWeatherData.ts lines 51-114): fold the tag list and
finally store the sensorModels object on the reading (unconditionally, as
the source does on line 111). -/
def parseWeatherTags (tags : List (List String)) : PartialReading × List String :=
  let st := tags.foldl applyTag (({} : PartialReading), ([] : List String), ([] : List (String × String)))
  ({ st.1 with sensorModels := some st.2.2 }, st.2.1)

/-- Number of keys present on the PartialReading object, i.e. the value of
Object.keys(parsed).length in the source. -/
def optCount (o : Option ℚ) : Nat := if o.isSome then 1 else 0

/-- Object.keys(parsed).length of a PartialReading. -/
def keyCount (r : PartialReading) : Nat :=
  optCount r.temperature + optCount r.humidity + optCount r.pm1 + optCount r.pm25 +
    optCount r.pm10 + optCount r.air_quality + optCount r.pressure + optCount r.light +
    optCount r.rain + r.extra.length + (if r.sensorModels.isSome then 1 else 0)

/-- Station metadata (useWeatherData.ts WeatherStationMetadata).  elevation
is Option (Option Rat): the outer none is JS undefined (no elevation tag),
some none is NaN (tag present, value unparseable), some (some q) a number. -/
structure WeatherStationMetadata where
  name : Option String
  location : Option String
  elevation : Option (Option ℚ)
  sensors : List String
deriving DecidableEq, Repr

/-- parseStationMetadata (useWeatherData.ts lines 116-128; the identical
per-event mapping in useWeatherStations.ts lines 34-47 shares this shape). -/
def parseStationMetadata (tags : List (List String)) : WeatherStationMetadata :=
  let nameTag := tags.find? (fun t => t.getD 0 "" = "name")
  let locationTag := tags.find? (fun t => t.getD 0 "" = "location")
  let elevationTag := tags.find? (fun t => t.getD 0 "" = "elevation")
  let sensorTags := tags.filter (fun t => t.getD 0 "" = "sensor")
  { name := nameTag.bind (fun t => t.get? 1),
    location := locationTag.bind (fun t => t.get? 1),
    elevation := elevationTag.map (fun t => jsParseFloat (t.getD 1 "")),
    sensors := sensorTags.map (fun t => t.getD 1 "") }

/-- A materialized reading pushed by the useWeatherData loop (lines
255-265): the spread of the parsed partial reading with the three
particulate channels forced to numbers, plus timestamp, event id and the
raw snapshot (modelled by carrying the source event). -/
structure WeatherReading where
  temperature : Option ℚ
  humidity : Option ℚ
  pm1 : ℚ
  pm25 : ℚ
  pm10 : ℚ
  air_quality : Option ℚ
  pressure : Option ℚ
  light : Option ℚ
  rain : Option ℚ
  extra : List (String × ℚ)
  sensorModels : List (String × String)
  timestamp : Int
  eventId : String
  rawEvent : NostrEvent
deriving DecidableEq, Repr

/-- A flagged anomalous reading (useWeatherData.ts FlaggedReading). -/
structure FlaggedReading where
  sensor : String
  value : ℚ
  timestamp : Int
  eventId : String
  rawEvent : NostrEvent
  reason : String
deriving DecidableEq, Repr

/-- One particulate anomaly check of the loop (lines 217-253, identical for
PM1, PM2.5 and PM10 up to the sensor label): given the previous valid value
and this reading's channel value, return the possibly-overwritten channel
value and the flag that was pushed, if any. -/
def checkPM (sensor : String) (previous : Option ℚ) (value : ℚ) (e : NostrEvent) :
    ℚ × Option FlaggedReading :=
  match previous with
  | some prev =>
    if 0 < prev ∧ prev * 5 < value then
      (0, some { sensor := sensor, value := value, timestamp := e.created_at,
                 eventId := e.id, rawEvent := e,
                 reason := "Value is " ++ toFixed1 (value / prev) ++ "x previous reading ("
                   ++ toFixed1 prev ++ " µg/m³)" })
    else (value, none)
  | none => (value, none)

/-- Detected sensor inventory (useWeatherData.ts DetectedSensors). -/
structure DetectedSensors where
  supported : List String
  unsupported : List String
  all : List String
deriving DecidableEq, Repr

/-- The mutable state of the parse-and-deduplicate loop (lines 196-202):
accumulated readings and flags, the seen-timestamp set, the set of all
sensor types encountered (insertion ordered, as a JS Set), and the previous
valid value per particulate channel. -/
structure LoopState where
  readings : List WeatherReading
  flagged : List FlaggedReading
  seen : List Int
  allSensorTypes : List String
  previousPM1 : Option ℚ
  previousPM25 : Option ℚ
  previousPM10 : Option ℚ
deriving DecidableEq, Repr

/-- The loop's initial state. -/
def initState : LoopState := ⟨[], [], [], [], none, none, none⟩

/-- JS Set.add: append when the element is not yet present. -/
def addSensorType (acc : List String) (s : String) : List String :=
  if s ∈ acc then acc else acc ++ [s]

/-- sensorTypes.forEach adding every element into the allSensorTypes set. -/
def addAll (acc : List String) (l : List String) : List String :=
  l.foldl addSensorType acc

/-- The body of the guarded region (lines 211-273): anomaly-check the three
particulate channels, push the materialized reading and any flags, update
the per-channel previous values, and mark the timestamp seen. -/
def processParsed (s : LoopState) (e : NostrEvent) (parsed : PartialReading) : LoopState :=
  let pm1v := parsed.pm1.getD 0
  let pm25v := parsed.pm25.getD 0
  let pm10v := parsed.pm10.getD 0
  let r1 := checkPM "PM1" s.previousPM1 pm1v e
  let r2 := checkPM "PM2.5" s.previousPM25 pm25v e
  let r3 := checkPM "PM10" s.previousPM10 pm10v e
  { s with
    flagged := s.flagged ++ r1.2.toList ++ r2.2.toList ++ r3.2.toList,
    readings := s.readings ++ [{
      temperature := parsed.temperature,
      humidity := parsed.humidity,
      pm1 := r1.1, pm25 := r2.1, pm10 := r3.1,
      air_quality := parsed.air_quality, pressure := parsed.pressure,
      light := parsed.light, rain := parsed.rain,
      extra := parsed.extra,
      sensorModels := parsed.sensorModels.getD [],
      timestamp := e.created_at, eventId := e.id, rawEvent := e }],
    previousPM1 := if 0 < r1.1 then some r1.1 else s.previousPM1,
    previousPM25 := if 0 < r2.1 then some r2.1 else s.previousPM25,
    previousPM10 := if 0 < r3.1 then some r3.1 else s.previousPM10,
    seen := s.seen ++ [e.created_at] }

/-- One iteration of the main loop (lines 204-275): skip a seen timestamp;
otherwise parse the tags, record the sensor types, and when the parsed
object has at least one key run the guarded region. -/
def stepEvent (s : LoopState) (e : NostrEvent) : LoopState :=
  if e.created_at ∈ s.seen then s
  else
    let pr := parseWeatherTags e.tags
    let s1 := { s with allSensorTypes := addAll s.allSensorTypes pr.2 }
    if 0 < keyCount pr.1 then processParsed s1 e pr.1 else s1

/-- The whole parse-deduplicate-flag loop over the descending-sorted event
list. -/
def processEvents (events : List NostrEvent) : LoopState :=
  events.foldl stepEvent initState

/-- Categorization of the detected sensors (lines 277-285). -/
def detectedSensors (s : LoopState) : DetectedSensors :=
  { supported := s.allSensorTypes.filter (fun n => n ∈ KNOWN_SENSORS),
    unsupported := s.allSensorTypes.filter (fun n => n ∉ KNOWN_SENSORS),
    all := s.allSensorTypes }

/-- The 24 hourly slot centers of the daily chart (WeatherChart.tsx lines
268-272): for i from 23 down to 0, now - i hours. -/
def timeSlots24 (now : Int) : List Int :=
  (List.range 24).reverse.map (fun (i : ℕ) => now - (i : ℤ) * 3600)

/-- The 60 minutely slot centers of the last-hour chart (lines 315-319):
for i from 59 down to 0, now - i minutes. -/
def timeSlots60 (now : Int) : List Int :=
  (List.range 60).reverse.map (fun (i : ℕ) => now - (i : ℤ) * 60)

/-- The per-slot resolution the chart applies to a particulate channel:
first reading within the tolerance window of the slot center, with a zero
channel value treated as no data. -/
def pmSlot (get : WeatherReading → ℚ) (data : List WeatherReading) (tol : Nat)
    (ts : Int) : Option ℚ :=
  match data.find? (fun r => (r.timestamp - ts).natAbs < tol) with
  | some r => if get r = 0 then none else some (get r)
  | none => none

/-- pm1Data of the 24-hour chart (lines 296-299). -/
def pm1Data24 (now : Int) (data : List WeatherReading) : List (Option ℚ) :=
  (timeSlots24 now).map fun ts =>
    match data.find? (fun r => (r.timestamp - ts).natAbs < 1800) with
    | some r => if r.pm1 = 0 then none else some r.pm1
    | none => none

/-- pm25Data of the 24-hour chart (lines 301-304). -/
def pm25Data24 (now : Int) (data : List WeatherReading) : List (Option ℚ) :=
  (timeSlots24 now).map fun ts =>
    match data.find? (fun r => (r.timestamp - ts).natAbs < 1800) with
    | some r => if r.pm25 = 0 then none else some r.pm25
    | none => none

/-- pm10Data of the 24-hour chart (lines 306-309). -/
def pm10Data24 (now : Int) (data : List WeatherReading) : List (Option ℚ) :=
  (timeSlots24 now).map fun ts =>
    match data.find? (fun r => (r.timestamp - ts).natAbs < 1800) with
    | some r => if r.pm10 = 0 then none else some r.pm10
    | none => none

/-- pm1Data of the last-hour chart (lines 343-346). -/
def pm1Data60 (now : Int) (data : List WeatherReading) : List (Option ℚ) :=
  (timeSlots60 now).map fun ts =>
    match data.find? (fun r => (r.timestamp - ts).natAbs < 30) with
    | some r => if r.pm1 = 0 then none else some r.pm1
    | none => none

/-- pm25Data of the last-hour chart (lines 348-351). -/
def pm25Data60 (now : Int) (data : List WeatherReading) : List (Option ℚ) :=
  (timeSlots60 now).map fun ts =>
    match data.find? (fun r => (r.timestamp - ts).natAbs < 30) with
    | some r => if r.pm25 = 0 then none else some r.pm25
    | none => none

/-- pm10Data of the last-hour chart (lines 353-356). -/
def pm10Data60 (now : Int) (data : List WeatherReading) : List (Option ℚ) :=
  (timeSlots60 now).map fun ts =>
    match data.find? (fun r => (r.timestamp - ts).natAbs < 30) with
    | some r => if r.pm10 = 0 then none else some r.pm10
    | none => none

/-- A concrete reading used to exercise the bucket grids: pm25 is 7 at
timestamp 96400. -/
def demoReading : WeatherReading :=
  ⟨none, none, 0, 7, 0, none, none, none, none, [], [], 96400, "id0",
    ⟨"id0", 96400, []⟩⟩

/-- The four PM2.5 scenario events, newest first: chronological values
10, 12, 80, 11 supplied to the detector in descending-timestamp order. -/
def eventsPm25Scenario : List NostrEvent :=
  [⟨"a", 4000, [["pm25", "11"]]⟩, ⟨"b", 3000, [["pm25", "80"]]⟩,
   ⟨"c", 2000, [["pm25", "12"]]⟩, ⟨"d", 1000, [["pm25", "10"]]⟩]

/-- Two events sharing a timestamp whose second event carries a sensor type
the first does not. -/
def eventsDupTs : List NostrEvent :=
  [⟨"a", 1000, [["temp", "1"]]⟩, ⟨"b", 1000, [["weird", "2"]]⟩]

/-- The deduplication scenario events: B and A share createdAt 1000 and B
precedes A in the descending input. -/
def eventsSameTs : List NostrEvent :=
  [⟨"B", 1000, [["temp", "2"]]⟩, ⟨"A", 1000, [["temp", "3"]]⟩]

/-- A single event contributing zero parseable channels (its only tag is on
the ignore list). -/
def eventNoChannels : NostrEvent := ⟨"x", 500, [["e", "abc"]]⟩

/-- Two events sharing createdAt 1000 where the first contributes zero
parseable channels and the second parses a temperature channel. -/
def eventsEmptyFirst : List NostrEvent :=
  [⟨"E1", 1000, [["e", "abc"]]⟩, ⟨"E2", 1000, [["temp", "3"]]⟩]

/-- A single event carrying only a temperature tag. -/
def eventTempOnly : NostrEvent := ⟨"t1", 42, [["temp", "3"]]⟩

/-- The reading the pipeline materializes for eventTempOnly. -/
def tempOnlyReading : WeatherReading :=
  ⟨some 3, none, 0, 0, 0, none, none, none, none, [], [], 42, "t1", eventTempOnly⟩

/-- The legacy content-format reading: the three extracted fields, each
possibly NaN (none) when the captured group is not a number. -/
structure LegacyReading where
  temperature : Option ℚ
  humidity : Option ℚ
  pm25 : Option ℚ
deriving DecidableEq, Repr

/-- Whether a character belongs to the regex class of digits and dots. -/
def isDigitDot (c : Char) : Bool := c.isDigit || c == '.'

/-- Regex match attempt at the current position: the literal pattern, then
one or more digit-or-dot characters, then the required following literal
character when there is one; the captured group is returned.  Because the
required follower is never a digit or a dot, greedy matching with
backtracking coincides with taking the maximal digit-or-dot run. -/
def tryMatchNum (pat : List Char) (suf : Option Char) (s : List Char) : Option String :=
  if pat.isPrefixOf s then
    let rest := s.drop pat.length
    let ds := rest.takeWhile isDigitDot
    if ds.isEmpty then none
    else
      match suf with
      | none => some (String.mk ds)
      | some ch =>
        match rest.drop ds.length with
        | c :: _ => if c == ch then some (String.mk ds) else none
        | [] => none
  else none

/-- Leftmost regex match: try every start position left to right. -/
def searchNum (pat : List Char) (suf : Option Char) : List Char → Option String
  | [] => none
  | c :: rest =>
    match tryMatchNum pat suf (c :: rest) with
    | some g => some g
    | none => searchNum pat suf rest

/-- The captured group of the regex matching T=, digits and dots, then C. -/
def tempMatch (content : String) : Option String :=
  searchNum ['T', '='] (some 'C') content.data

/-- The captured group of the regex matching H=, digits and dots, then %. -/
def humidityMatch (content : String) : Option String :=
  searchNum ['H', '='] (some '%') content.data

/-- The captured group of the regex matching PM2.5= then digits and dots. -/
def pm25LegacyMatch (content : String) : Option String :=
  searchNum ['P', 'M', '2', '.', '5', '='] none content.data

/-- parseWeatherContent of the legacy variant (lines 318-337): all three
fields must match, else the whole content yields no reading. -/
def parseWeatherContent (content : String) : Option LegacyReading :=
  match tempMatch content, humidityMatch content, pm25LegacyMatch content with
  | some t, some h, some p =>
    some { temperature := jsParseFloat t, humidity := jsParseFloat h, pm25 := jsParseFloat p }
  | _, _, _ => none

/-! Helper lemmas for evaluating the embedded definitions on concrete
inputs (the character-level scanners reduce in the kernel, while rational
arithmetic is evaluated by norm_num), and for reasoning about the
first-match semantics of List.find?. -/

/-- Evaluation rule for jsParseFloat via its scanner. -/
theorem jsParseFloat_eq (s : String) (neg : Bool) (ip fp : List Char) (expo : Int)
    (m f : ℕ) (k : ℕ) (q : ℚ)
    (hscan : floatScan s = some (neg, ip, fp, expo))
    (hm : digitsToNat ip = m) (hf : digitsToNat fp = f) (hk : fp.length = k)
    (hq : (if neg then (-1 : ℚ) else 1) * ((m : ℚ) + (f : ℚ) / 10 ^ k) *
      (if 0 ≤ expo then (10 : ℚ) ^ expo.toNat else 1 / 10 ^ (-expo).toNat) = q) :
    jsParseFloat s = some q := by
  rw [jsParseFloat, hscan]
  simp only [Option.map_some', floatValue, hm, hf, hk]
  rw [hq]

/-- Evaluation rule for jsParseFloat on a plain nonnegative decimal. -/
theorem jsParseFloat_decimal (s : String) (ip fp : List Char) (m f : ℕ) (k : ℕ) (q : ℚ)
    (hscan : floatScan s = some (false, ip, fp, 0))
    (hm : digitsToNat ip = m) (hf : digitsToNat fp = f) (hk : fp.length = k)
    (hq : (m : ℚ) + (f : ℚ) / 10 ^ k = q) :
    jsParseFloat s = some q := by
  refine jsParseFloat_eq s false ip fp 0 m f k q hscan hm hf hk ?_
  simpa using hq

/-- A failed scan is a NaN parse. -/
theorem jsParseFloat_none (s : String) (hscan : floatScan s = none) :
    jsParseFloat s = none := by
  rw [jsParseFloat, hscan]; rfl

/-- Evaluation rule for toFixed1 on a value that rounds to a nonnegative
number of tenths. -/
theorem toFixed1_eq (q : ℚ) (n : ℕ) (h : ⌊q * 10 + 1 / 2⌋ = (n : ℤ)) :
    toFixed1 q = toString (n / 10) ++ "." ++ toString (n % 10) := by
  rw [toFixed1, h]
  simp

/-- find? returns the first element satisfying the predicate. -/
theorem find?_first {α : Type} (p : α → Bool) (pre : List α) (a : α) (post : List α)
    (hpre : ∀ x ∈ pre, p x = false) (ha : p a = true) :
    (pre ++ a :: post).find? p = some a := by
  induction pre with
  | nil => simp [List.find?_cons_of_pos, ha]
  | cons b l ih =>
    have hb : p b = false := hpre b (by simp)
    rw [List.cons_append, List.find?_cons_of_neg _ (by simp [hb])]
    exact ih (fun x hx => hpre x (by simp [hx]))

/-- C1: the per-channel anomaly rule of the detector.  A channel is flagged
iff the previous valid value exists, is positive, and the value exceeds
five times it; on a flag the emitted FlaggedReading carries the value and
the formatted reason string and the channel value is overwritten with 0; an
unflagged positive value becomes the new previous valid value (the update
expression is the source's if-guard on the post-check value); a value of
exactly 0 is never flagged and never updates the previous valid value; and
with no prior positive baseline nothing can be flagged. -/
theorem c1_anomaly_rule (sensor : String) (e : NostrEvent) (previous : Option ℚ) (v : ℚ) :
    ((checkPM sensor previous v e).2 ≠ none ↔
      ∃ p, previous = some p ∧ 0 < p ∧ p * 5 < v) ∧
    (∀ p, previous = some p → 0 < p → p * 5 < v →
      checkPM sensor previous v e =
        (0, some { sensor := sensor, value := v, timestamp := e.created_at,
                   eventId := e.id, rawEvent := e,
                   reason := "Value is " ++ toFixed1 (v / p) ++ "x previous reading ("
                     ++ toFixed1 p ++ " µg/m³)" })) ∧
    ((checkPM sensor previous v e).2 = none → (checkPM sensor previous v e).1 = v) ∧
    ((checkPM sensor previous v e).2 = none → 0 < v →
      (if 0 < (checkPM sensor previous v e).1 then some (checkPM sensor previous v e).1
        else previous) = some v) ∧
    (v = 0 → (checkPM sensor previous v e).2 = none ∧
      (if 0 < (checkPM sensor previous v e).1 then some (checkPM sensor previous v e).1
        else previous) = previous) ∧
    ((previous = none ∨ previous = some 0) → (checkPM sensor previous v e).2 = none) := by
  rcases previous with _ | p
  · refine ⟨by simp [checkPM], ?_, by simp [checkPM], ?_, ?_, by simp [checkPM]⟩
    · intro p h
      cases h
    · intro _ hv
      simp [checkPM, hv]
    · intro hv
      subst hv
      simp [checkPM]
  · by_cases hc : 0 < p ∧ p * 5 < v
    · refine ⟨by simp [checkPM, hc], ?_, by simp [checkPM, hc], ?_, ?_, ?_⟩
      · intro p' hp' hp0 hpv
        cases hp'
        simp [checkPM, hc]
      · intro hnone
        simp [checkPM, hc] at hnone
      · intro hv
        subst hv
        exfalso
        have := hc.1
        have := hc.2
        linarith
      · rintro (h | h)
        · cases h
        · cases h
          simp at hc
    · refine ⟨by simp [checkPM, hc], ?_, by simp [checkPM, hc], ?_, ?_, ?_⟩
      · intro p' hp' hp0 hpv
        cases hp'
        exact absurd ⟨hp0, hpv⟩ hc
      · intro _ hv
        simp [checkPM, hc, hv]
      · intro hv
        subst hv
        simp [checkPM, hc]
      · intro _
        simp [checkPM, hc]

/-- C1 witness: with previous valid value 12, the value 80 is flagged with
ratio 6.7 and baseline 12.0 in the reason, and overwritten with 0. -/
theorem c1_witness :
    checkPM "PM2.5" (some 12) 80 ⟨"b", 3000, [["pm25", "80"]]⟩ =
      (0, some { sensor := "PM2.5", value := 80, timestamp := 3000, eventId := "b",
                 rawEvent := ⟨"b", 3000, [["pm25", "80"]]⟩,
                 reason := "Value is 6.7x previous reading (12.0 µg/m³)" }) := by
  have h := (c1_anomaly_rule "PM2.5" ⟨"b", 3000, [["pm25", "80"]]⟩ (some 12) 80).2.1 12 rfl
    (by norm_num) (by norm_num)
  rw [h]
  have t1 : toFixed1 ((80 : ℚ) / 12) = "6.7" := by
    rw [toFixed1_eq _ 67 (by norm_num)]; rfl
  have t2 : toFixed1 (12 : ℚ) = "12.0" := by
    rw [toFixed1_eq _ 120 (by norm_num)]; rfl
  rw [t1, t2]
  rfl

/-- A tag whose value does not parse leaves the accumulator unchanged. -/
theorem applyTag_nan (st : PartialReading × List String × List (String × String))
    (t : List String) (h : jsParseFloat (tagValue t) = none) :
    applyTag st t = st := by
  by_cases hig : tagName t ∈ IGNORED_TAGS <;> simp [applyTag, hig, h]

/-- applyTag never removes recorded sensor types. -/
theorem applyTag_types_sub (st : PartialReading × List String × List (String × String))
    (t : List String) : st.2.1 ⊆ (applyTag st t).2.1 := by
  by_cases hig : tagName t ∈ IGNORED_TAGS
  · simp [applyTag, hig]
  · cases hp : jsParseFloat (tagValue t)
    · simp [applyTag, hig, hp]
    · simp [applyTag, hig, hp]

/-- A non-ignored tag with a parseable value appends its name to the
sensor-type list. -/
theorem applyTag_types_rec (st : PartialReading × List String × List (String × String))
    (t : List String) (hig : tagName t ∉ IGNORED_TAGS) (q : ℚ)
    (hp : jsParseFloat (tagValue t) = some q) :
    (applyTag st t).2.1 = st.2.1 ++ [tagName t] := by
  simp [applyTag, hig, hp]

/-- Recorded sensor types survive the rest of the fold. -/
theorem foldl_types_mono (l : List (List String))
    (st : PartialReading × List String × List (String × String)) (n : String)
    (h : n ∈ st.2.1) : n ∈ (l.foldl applyTag st).2.1 := by
  induction l generalizing st with
  | nil => exact h
  | cons t rest ih => exact ih _ (applyTag_types_sub st t h)

/-- C7: on the scenario event with an ignore-list tag, the tag parser skips
the e tag, yields temperature 21.4 and pm25 999 with the last-seen pm25
model PMS5003, and observes exactly the sensor types temp and pm25; in
general a tag whose second field does not parse as a float is skipped
entirely, and every non-ignored tag with a parseable value has its name
recorded in the observed sensor types whether or not it is known. -/
theorem c7_tag_rules :
    (parseWeatherTags [["e", "abc"], ["temp", "21.4"], ["pm25", "999"], ["pm25", "999", "PMS5003"]] =
      ({ temperature := some (21.4 : ℚ), pm25 := some (999 : ℚ),
         sensorModels := some [("pm25", "PMS5003")] },
       ["temp", "pm25", "pm25"])) ∧
    (∀ s, s ∈ (parseWeatherTags
        [["e", "abc"], ["temp", "21.4"], ["pm25", "999"], ["pm25", "999", "PMS5003"]]).2 ↔
      s = "temp" ∨ s = "pm25") ∧
    (∀ pre t rest, jsParseFloat (tagValue t) = none →
      parseWeatherTags (pre ++ t :: rest) = parseWeatherTags (pre ++ rest)) ∧
    (∀ pre t rest, tagName t ∉ IGNORED_TAGS → jsParseFloat (tagValue t) ≠ none →
      tagName t ∈ (parseWeatherTags (pre ++ t :: rest)).2) := by
  have h1 : jsParseFloat "abc" = none := jsParseFloat_none _ rfl
  have h2 : jsParseFloat "21.4" = some (21.4 : ℚ) :=
    jsParseFloat_decimal _ _ _ 21 4 1 _ rfl rfl rfl rfl (by norm_num)
  have h3 : jsParseFloat "999" = some (999 : ℚ) :=
    jsParseFloat_decimal _ _ _ 999 0 0 _ rfl rfl rfl rfl (by norm_num)
  have H : parseWeatherTags
      [["e", "abc"], ["temp", "21.4"], ["pm25", "999"], ["pm25", "999", "PMS5003"]] =
      ({ temperature := some (21.4 : ℚ), pm25 := some (999 : ℚ),
         sensorModels := some [("pm25", "PMS5003")] },
       ["temp", "pm25", "pm25"]) := by
    simp [parseWeatherTags, applyTag, tagName, tagValue, tagModel, h1, h2, h3,
      setModel, IGNORED_TAGS]
  refine ⟨H, ?_, ?_, ?_⟩
  · intro s
    rw [H]
    show s ∈ ["temp", "pm25", "pm25"] ↔ _
    constructor
    · intro hs
      simp only [List.mem_cons, List.not_mem_nil, or_false] at hs
      tauto
    · intro hs
      rcases hs with h | h <;> simp [h]
  · intro pre t rest h
    have hf : ∀ init, List.foldl applyTag init (pre ++ t :: rest) =
        List.foldl applyTag init (pre ++ rest) := by
      intro init
      rw [List.foldl_append, List.foldl_append, List.foldl_cons, applyTag_nan _ _ h]
    simp [parseWeatherTags, hf]
  · intro pre t rest hig hnn
    obtain ⟨q, hq⟩ : ∃ q, jsParseFloat (tagValue t) = some q := by
      cases hv : jsParseFloat (tagValue t)
      · exact absurd hv hnn
      · exact ⟨_, rfl⟩
    show tagName t ∈ (List.foldl applyTag _ (pre ++ t :: rest)).2.1
    rw [List.foldl_append, List.foldl_cons]
    apply foldl_types_mono
    rw [applyTag_types_rec _ _ hig q hq]
    simp

/-- C7 witness: a tag with an unparseable value is dropped from a concrete
tag list, and a concrete unknown tag with a parseable value is recorded. -/
theorem c7_witness :
    parseWeatherTags [["temp", "1"], ["x", "zz"]] = parseWeatherTags [["temp", "1"]] ∧
    "weird" ∈ (parseWeatherTags [["weird", "5"]]).2 := by
  constructor
  · have h := c7_tag_rules.2.2.1 [["temp", "1"]] ["x", "zz"] [] (jsParseFloat_none _ rfl)
    simpa using h
  · have h := c7_tag_rules.2.2.2 [] ["weird", "5"] [] (by decide) (by
      show jsParseFloat "5" ≠ none
      rw [jsParseFloat_decimal "5" _ _ 5 0 0 5 rfl rfl rfl rfl (by norm_num)]
      simp)
    simpa using h

/-- C8: the legacy content parser maps the string
"Weather: T=25.2C H=63.7% PM2.5=0" to temperature 25.2, humidity 63.7 and
pm25 0, and whenever any of the three fixed patterns fails to match the
content, the whole event's content yields no reading. -/
theorem c8_legacy_content :
    parseWeatherContent "Weather: T=25.2C H=63.7% PM2.5=0" =
      some { temperature := some (25.2 : ℚ), humidity := some (63.7 : ℚ), pm25 := some 0 } ∧
    ∀ content : String,
      (tempMatch content = none ∨ humidityMatch content = none ∨
        pm25LegacyMatch content = none) →
      parseWeatherContent content = none := by
  constructor
  · have e1 : jsParseFloat "25.2" = some (25.2 : ℚ) :=
      jsParseFloat_decimal _ _ _ 25 2 1 _ rfl rfl rfl rfl (by norm_num)
    have e2 : jsParseFloat "63.7" = some (63.7 : ℚ) :=
      jsParseFloat_decimal _ _ _ 63 7 1 _ rfl rfl rfl rfl (by norm_num)
    have e3 : jsParseFloat "0" = some (0 : ℚ) :=
      jsParseFloat_decimal _ _ _ 0 0 0 _ rfl rfl rfl rfl (by norm_num)
    show (some ⟨jsParseFloat "25.2", jsParseFloat "63.7", jsParseFloat "0"⟩ : Option LegacyReading) = _
    rw [e1, e2, e3]
  · intro content h
    cases ht : tempMatch content <;> cases hh : humidityMatch content <;>
      cases hp : pm25LegacyMatch content <;> simp_all [parseWeatherContent]

/-- C8 witness: the scenario content missing the H= field yields no
reading. -/
theorem c8_witness : parseWeatherContent "Weather: T=25.2C PM2.5=0" = none :=
  c8_legacy_content.2 _ (Or.inr (Or.inl rfl))

/-- C9 counterexample: on the tag list with an unparseable elevation value,
the station-metadata parser yields NaN (modelled some none), not the absent
value undefined (modelled none) the claim asserts. -/
theorem c9_claim_counterexample :
    (parseStationMetadata [["elevation", "abc"]]).elevation = some none ∧
    (parseStationMetadata [["elevation", "abc"]]).elevation ≠ none :=
  ⟨rfl, by decide⟩

/-- Projection of the station-metadata parser onto its elevation field. -/
theorem parseStationMetadata_elevation (tags : List (List String)) :
    (parseStationMetadata tags).elevation =
      (tags.find? (fun t => t.getD 0 "" = "elevation")).map
        (fun t => jsParseFloat (t.getD 1 "")) := rfl

/-- C9 (amended): the elevation field parses the first elevation tag's
value as a float; when no elevation tag exists the result is absent
(undefined), and when the tag is present but its value fails to parse the
result is NaN, which is distinct from undefined and from a true zero
elevation. -/
theorem c9_elevation_amended (tags : List (List String)) :
    (tags.find? (fun t => t.getD 0 "" = "elevation") = none →
      (parseStationMetadata tags).elevation = none) ∧
    (∀ pre t post, tags = pre ++ t :: post → t.getD 0 "" = "elevation" →
      (∀ x ∈ pre, ¬ x.getD 0 "" = "elevation") →
      (parseStationMetadata tags).elevation = some (jsParseFloat (t.getD 1 ""))) ∧
    (∀ t, tags.find? (fun t => t.getD 0 "" = "elevation") = some t →
      jsParseFloat (t.getD 1 "") = none →
      (parseStationMetadata tags).elevation = some none ∧
        (some (none : Option ℚ) : Option (Option ℚ)) ≠ some (some 0)) := by
  refine ⟨?_, ?_, ?_⟩
  · intro h
    rw [parseStationMetadata_elevation, h, Option.map_none']
  · intro pre t post heq ht hpre
    have hfind : tags.find? (fun t => t.getD 0 "" = "elevation") = some t := by
      subst heq
      exact find?_first _ pre t post
        (fun x hx => by simpa using hpre x hx) (by simpa using ht)
    rw [parseStationMetadata_elevation, hfind, Option.map_some']
  · intro t hfind hnan
    refine ⟨?_, by simp⟩
    rw [parseStationMetadata_elevation, hfind, Option.map_some', hnan]

/-- C9 witness: on a concrete tag list whose second tag is a parseable
elevation, the amended rule yields the parsed number 12.5. -/
theorem c9_witness :
    (parseStationMetadata [["name", "S"], ["elevation", "12.5"]]).elevation =
      some (some (12.5 : ℚ)) := by
  have h := (c9_elevation_amended [["name", "S"], ["elevation", "12.5"]]).2.1
    [["name", "S"]] ["elevation", "12.5"] [] rfl rfl (by decide)
  rw [h]
  have hv : (["elevation", "12.5"] : List String).getD 1 "" = "12.5" := rfl
  have e1 : jsParseFloat "12.5" = some (12.5 : ℚ) :=
    jsParseFloat_decimal _ _ _ 12 5 1 _ rfl rfl rfl rfl (by norm_num)
  rw [hv, e1]

/-- getD of a map over a reversed range. -/
theorem reverse_range_map_getD (f : ℕ → ℤ) (n i : ℕ) (h : i < n) :
    ((List.range n).reverse.map f).getD i 0 = f (n - 1 - i) := by
  have hlen : ((List.range n).reverse.map f).length = n := by simp
  rw [List.getD_eq_getElem _ _ (by rw [hlen]; exact h)]
  rw [List.getElem_map, List.getElem_reverse, List.getElem_range]
  congr 1
  simp

/-- The i-th daily slot center is now minus 23 - i hours. -/
theorem ts24_getD (now : Int) (i : Nat) (h : i < 24) :
    (timeSlots24 now).getD i 0 = now - (23 - (i : Int)) * 3600 := by
  rw [timeSlots24, reverse_range_map_getD _ 24 i h]
  congr 1
  have hc : ((24 - 1 - i : ℕ) : ℤ) = 23 - (i : ℤ) := by omega
  rw [hc]

/-- The i-th minutely slot center is now minus 59 - i minutes. -/
theorem ts60_getD (now : Int) (i : Nat) (h : i < 60) :
    (timeSlots60 now).getD i 0 = now - (59 - (i : Int)) * 60 := by
  rw [timeSlots60, reverse_range_map_getD _ 60 i h]
  congr 1
  have hc : ((60 - 1 - i : ℕ) : ℤ) = 59 - (i : ℤ) := by omega
  rw [hc]

/-- C3: the two required grids have 60 slots spaced 60 seconds and 24 slots
spaced 3600 seconds, the particulate series of both charts resolve each
slot with the shared per-slot rule, and that rule returns none on an
unmatched slot, resolves a matched slot to the first reading within
tolerance with a zero particulate value reported as none, and never
reports the number 0. -/
theorem c3_bucket_grids (now : Int) (data : List WeatherReading) :
    ((timeSlots60 now).length = 60 ∧ (timeSlots24 now).length = 24) ∧
    (∀ i : Nat, i < 60 → (timeSlots60 now).getD i 0 = now - (59 - (i : Int)) * 60) ∧
    (∀ i : Nat, i < 24 → (timeSlots24 now).getD i 0 = now - (23 - (i : Int)) * 3600) ∧
    (pm1Data60 now data = (timeSlots60 now).map (pmSlot (fun r => r.pm1) data 30) ∧
     pm25Data60 now data = (timeSlots60 now).map (pmSlot (fun r => r.pm25) data 30) ∧
     pm10Data60 now data = (timeSlots60 now).map (pmSlot (fun r => r.pm10) data 30) ∧
     pm1Data24 now data = (timeSlots24 now).map (pmSlot (fun r => r.pm1) data 1800) ∧
     pm25Data24 now data = (timeSlots24 now).map (pmSlot (fun r => r.pm25) data 1800) ∧
     pm10Data24 now data = (timeSlots24 now).map (pmSlot (fun r => r.pm10) data 1800)) ∧
    (∀ (get : WeatherReading → ℚ) (tol : Nat) (ts : Int),
      ((∀ r ∈ data, ¬ (r.timestamp - ts).natAbs < tol) → pmSlot get data tol ts = none) ∧
      (∀ pre r post, data = pre ++ r :: post → (r.timestamp - ts).natAbs < tol →
        (∀ x ∈ pre, ¬ (x.timestamp - ts).natAbs < tol) →
        pmSlot get data tol ts = if get r = 0 then none else some (get r)) ∧
      (∀ q, pmSlot get data tol ts = some q → q ≠ 0)) := by
  refine ⟨⟨by simp [timeSlots60], by simp [timeSlots24]⟩,
    fun i h => ts60_getD now i h, fun i h => ts24_getD now i h,
    ⟨rfl, rfl, rfl, rfl, rfl, rfl⟩, ?_⟩
  intro get tol ts
  refine ⟨?_, ?_, ?_⟩
  · intro h
    have hfind : data.find? (fun r => (r.timestamp - ts).natAbs < tol) = none := by
      rw [List.find?_eq_none]
      intro x hx
      simpa using h x hx
    simp [pmSlot, hfind]
  · intro pre r post hdata hr hpre
    have hfind : data.find? (fun r => (r.timestamp - ts).natAbs < tol) = some r := by
      subst hdata
      exact find?_first _ pre r post (fun x hx => by simpa using hpre x hx) (by simpa using hr)
    simp only [pmSlot, hfind]
  · intro q hq
    rw [pmSlot] at hq
    cases hfind : data.find? (fun r => (r.timestamp - ts).natAbs < tol) with
    | none => rw [hfind] at hq; cases hq
    | some r =>
      rw [hfind] at hq
      by_cases hz : get r = 0
      · simp [hz] at hq
      · simp [hz] at hq
        rw [← hq]
        exact hz

/-- C3 witness: a slot centered on the demo reading's timestamp resolves to
its pm25 value 7, and a slot 46400 seconds away resolves to none. -/
theorem c3_witness :
    pmSlot (fun r => r.pm25) [demoReading] 1800 96400 = some 7 ∧
    pmSlot (fun r => r.pm25) [demoReading] 1800 50000 = none := by
  constructor
  · have h := ((c3_bucket_grids 96400 [demoReading]).2.2.2.2
      (fun r => r.pm25) 1800 96400).2.1 [] demoReading [] rfl (by decide) (by simp)
    rw [h]
    norm_num [demoReading]
  · exact ((c3_bucket_grids 96400 [demoReading]).2.2.2.2
      (fun r => r.pm25) 1800 50000).1 (by decide)



theorem keyCount_parse_pos (tags : List (List String)) :
    0 < keyCount (parseWeatherTags tags).1 := by
  have hsm : (parseWeatherTags tags).1.sensorModels.isSome = true := by
    simp [parseWeatherTags]
  rw [keyCount, if_pos hsm]
  omega

theorem checkPM_zero (sensor : String) (prev : Option ℚ) (e : NostrEvent) :
    checkPM sensor prev 0 e = (0, none) := by
  rcases prev with _ | p
  · rfl
  · rw [checkPM, if_neg]
    rintro ⟨h1, h2⟩
    nlinarith

theorem stepEvent_mem (s : LoopState) (e : NostrEvent) (h : e.created_at ∈ s.seen) :
    stepEvent s e = s := by
  simp [stepEvent, h]

theorem stepEvent_unseen (s : LoopState) (e : NostrEvent) (h : e.created_at ∉ s.seen) :
    stepEvent s e = processParsed
      { s with allSensorTypes := addAll s.allSensorTypes (parseWeatherTags e.tags).2 }
      e (parseWeatherTags e.tags).1 := by
  simp [stepEvent, h, keyCount_parse_pos e.tags]

theorem processParsed_readings (s : LoopState) (e : NostrEvent) (p : PartialReading) :
    (processParsed s e p).readings = s.readings ++
      [⟨p.temperature, p.humidity,
        (checkPM "PM1" s.previousPM1 (p.pm1.getD 0) e).1,
        (checkPM "PM2.5" s.previousPM25 (p.pm25.getD 0) e).1,
        (checkPM "PM10" s.previousPM10 (p.pm10.getD 0) e).1,
        p.air_quality, p.pressure, p.light, p.rain, p.extra,
        p.sensorModels.getD [], e.created_at, e.id, e⟩] := rfl

theorem processParsed_seen (s : LoopState) (e : NostrEvent) (p : PartialReading) :
    (processParsed s e p).seen = s.seen ++ [e.created_at] := rfl

theorem processParsed_types (s : LoopState) (e : NostrEvent) (p : PartialReading) :
    (processParsed s e p).allSensorTypes = s.allSensorTypes := rfl



theorem stepEvent_seen_sub (s : LoopState) (e : NostrEvent) :
    ∀ t ∈ s.seen, t ∈ (stepEvent s e).seen := by
  intro t ht
  by_cases h : e.created_at ∈ s.seen
  · rw [stepEvent_mem s e h]; exact ht
  · rw [stepEvent_unseen s e h, processParsed_seen]
    exact List.mem_append_left _ ht

theorem stepEvent_seen_self (s : LoopState) (e : NostrEvent) :
    e.created_at ∈ (stepEvent s e).seen := by
  by_cases h : e.created_at ∈ s.seen
  · rw [stepEvent_mem s e h]; exact h
  · rw [stepEvent_unseen s e h, processParsed_seen]
    simp

theorem stepEvent_seen_super (s : LoopState) (e : NostrEvent) :
    ∀ t ∈ (stepEvent s e).seen, t ∈ s.seen ∨ t = e.created_at := by
  intro t ht
  by_cases h : e.created_at ∈ s.seen
  · rw [stepEvent_mem s e h] at ht; exact Or.inl ht
  · rw [stepEvent_unseen s e h, processParsed_seen] at ht
    simpa using ht

theorem addSensorType_mem (acc : List String) (x n : String) :
    n ∈ addSensorType acc x ↔ n ∈ acc ∨ n = x := by
  by_cases h : x ∈ acc
  · simp [addSensorType, h]
    intro hn
    subst hn
    exact h
  · simp [addSensorType, h]

theorem addAll_mem (l : List String) (acc : List String) (n : String) :
    n ∈ addAll acc l ↔ n ∈ acc ∨ n ∈ l := by
  induction l generalizing acc with
  | nil => simp [addAll]
  | cons x rest ih =>
    show n ∈ addAll (addSensorType acc x) rest ↔ _
    rw [ih, addSensorType_mem]
    simp [or_assoc]

theorem stepEvent_types_mono (s : LoopState) (e : NostrEvent) (n : String)
    (h : n ∈ s.allSensorTypes) : n ∈ (stepEvent s e).allSensorTypes := by
  by_cases hm : e.created_at ∈ s.seen
  · rw [stepEvent_mem s e hm]; exact h
  · rw [stepEvent_unseen s e hm, processParsed_types]
    show n ∈ addAll s.allSensorTypes (parseWeatherTags e.tags).2
    rw [addAll_mem]
    exact Or.inl h

theorem stepEvent_types_super (s : LoopState) (e : NostrEvent) (n : String)
    (h : n ∈ (stepEvent s e).allSensorTypes) :
    n ∈ s.allSensorTypes ∨ (e.created_at ∉ s.seen ∧ n ∈ (parseWeatherTags e.tags).2) := by
  by_cases hm : e.created_at ∈ s.seen
  · rw [stepEvent_mem s e hm] at h; exact Or.inl h
  · rw [stepEvent_unseen s e hm, processParsed_types] at h
    have : n ∈ addAll s.allSensorTypes (parseWeatherTags e.tags).2 := h
    rw [addAll_mem] at this
    rcases this with h' | h'
    · exact Or.inl h'
    · exact Or.inr ⟨hm, h'⟩

theorem stepEvent_types_new (s : LoopState) (e : NostrEvent) (n : String)
    (hm : e.created_at ∉ s.seen) (hn : n ∈ (parseWeatherTags e.tags).2) :
    n ∈ (stepEvent s e).allSensorTypes := by
  rw [stepEvent_unseen s e hm, processParsed_types]
  show n ∈ addAll s.allSensorTypes (parseWeatherTags e.tags).2
  rw [addAll_mem]
  exact Or.inr hn

theorem foldl_state_types_mono (events : List NostrEvent) (s : LoopState) (n : String)
    (h : n ∈ s.allSensorTypes) : n ∈ (events.foldl stepEvent s).allSensorTypes := by
  induction events generalizing s with
  | nil => exact h
  | cons e rest ih => exact ih _ (stepEvent_types_mono s e n h)



theorem foldl_origin (events : List NostrEvent) (s : LoopState) :
    ∀ r ∈ (events.foldl stepEvent s).readings,
      r ∈ s.readings ∨
      ∃ pre e post, events = pre ++ e :: post ∧ e.created_at ∉ s.seen ∧
        r.timestamp = e.created_at ∧ r.eventId = e.id ∧ r.rawEvent = e ∧
        (∀ e' ∈ pre, e'.created_at ≠ e.created_at) ∧
        r.temperature = (parseWeatherTags e.tags).1.temperature ∧
        r.humidity = (parseWeatherTags e.tags).1.humidity ∧
        ((parseWeatherTags e.tags).1.pm1 = none → r.pm1 = 0) ∧
        ((parseWeatherTags e.tags).1.pm25 = none → r.pm25 = 0) ∧
        ((parseWeatherTags e.tags).1.pm10 = none → r.pm10 = 0) := by
  induction events generalizing s with
  | nil => exact fun r hr => Or.inl hr
  | cons e rest ih =>
    intro r hr
    rw [List.foldl_cons] at hr
    rcases ih (stepEvent s e) r hr with hmem | ⟨pre, f, post, heq, hseen, hts, hid, hraw, hpre, hT, hH, h1, h2, h3⟩
    · -- r was already in the state after stepping e
      by_cases hm : e.created_at ∈ s.seen
      · rw [stepEvent_mem s e hm] at hmem
        exact Or.inl hmem
      · rw [stepEvent_unseen s e hm, processParsed_readings] at hmem
        rcases List.mem_append.mp hmem with hold | hnew
        · exact Or.inl hold
        · right
          refine ⟨[], e, rest, rfl, hm, ?_⟩
          rcases List.mem_singleton.mp hnew with rfl
          refine ⟨rfl, rfl, rfl, by simp, rfl, rfl, ?_, ?_, ?_⟩
          · intro hn
            show (checkPM "PM1" _ ((parseWeatherTags e.tags).1.pm1.getD 0) e).1 = 0
            rw [hn]
            show (checkPM "PM1" _ 0 e).1 = 0
            rw [checkPM_zero]
          · intro hn
            show (checkPM "PM2.5" _ ((parseWeatherTags e.tags).1.pm25.getD 0) e).1 = 0
            rw [hn]
            show (checkPM "PM2.5" _ 0 e).1 = 0
            rw [checkPM_zero]
          · intro hn
            show (checkPM "PM10" _ ((parseWeatherTags e.tags).1.pm10.getD 0) e).1 = 0
            rw [hn]
            show (checkPM "PM10" _ 0 e).1 = 0
            rw [checkPM_zero]
    · -- r originates in the rest of the fold
      right
      have hne : f.created_at ≠ e.created_at := by
        intro hcontra
        exact hseen (hcontra ▸ stepEvent_seen_self s e)
      have hf : f.created_at ∉ s.seen := fun hc => hseen (stepEvent_seen_sub s e _ hc)
      exact ⟨e :: pre, f, post, by simp [heq], hf, hts, hid, hraw,
        fun e' he' => by
          rcases List.mem_cons.mp he' with rfl | hin
          · exact fun hc => hne hc.symm
          · exact hpre e' hin,
        hT, hH, h1, h2, h3⟩



theorem foldl_sorted (events : List NostrEvent) (s : LoopState)
    (hs : List.Pairwise (fun a b => b.created_at ≤ a.created_at) events)
    (hys : ∀ r ∈ s.readings, r.timestamp ∈ s.seen)
    (hsorted : List.Pairwise (· > ·) (s.readings.map (fun r => r.timestamp)))
    (hbound : ∀ e ∈ events, ∀ t ∈ s.seen, e.created_at ≤ t) :
    List.Pairwise (· > ·) ((events.foldl stepEvent s).readings.map (fun r => r.timestamp)) ∧
    ∀ r ∈ (events.foldl stepEvent s).readings,
      r.timestamp ∈ (events.foldl stepEvent s).seen := by
  induction events generalizing s with
  | nil => exact ⟨hsorted, hys⟩
  | cons e rest ih =>
    rw [List.foldl_cons]
    by_cases hm : e.created_at ∈ s.seen
    · rw [stepEvent_mem s e hm]
      exact ih s hs.of_cons hys hsorted (fun f hf => hbound f (List.mem_cons_of_mem _ hf))
    · rw [stepEvent_unseen s e hm]
      set s1 := processParsed
        { s with allSensorTypes := addAll s.allSensorTypes (parseWeatherTags e.tags).2 }
        e (parseWeatherTags e.tags).1 with hs1
      have hr1 : s1.readings = s.readings ++
        [⟨(parseWeatherTags e.tags).1.temperature, (parseWeatherTags e.tags).1.humidity,
          (checkPM "PM1" s.previousPM1 ((parseWeatherTags e.tags).1.pm1.getD 0) e).1,
          (checkPM "PM2.5" s.previousPM25 ((parseWeatherTags e.tags).1.pm25.getD 0) e).1,
          (checkPM "PM10" s.previousPM10 ((parseWeatherTags e.tags).1.pm10.getD 0) e).1,
          (parseWeatherTags e.tags).1.air_quality, (parseWeatherTags e.tags).1.pressure,
          (parseWeatherTags e.tags).1.light, (parseWeatherTags e.tags).1.rain,
          (parseWeatherTags e.tags).1.extra,
          (parseWeatherTags e.tags).1.sensorModels.getD [], e.created_at, e.id, e⟩] := rfl
      have hseen1 : s1.seen = s.seen ++ [e.created_at] := rfl
      apply ih s1 hs.of_cons
      · intro r hr
        rw [hr1] at hr
        rw [hseen1]
        rcases List.mem_append.mp hr with hold | hnew
        · exact List.mem_append_left _ (hys r hold)
        · rcases List.mem_singleton.mp hnew with rfl
          simp
      · rw [hr1, List.map_append, List.pairwise_append]
        refine ⟨hsorted, by simp, ?_⟩
        intro a ha b hb
        simp only [List.map_cons, List.map_nil, List.mem_singleton] at hb
        subst hb
        rcases List.mem_map.mp ha with ⟨r, hrmem, rfl⟩
        have h1 : e.created_at ≤ r.timestamp :=
          hbound e (List.mem_cons_self e rest) _ (hys r hrmem)
        have h2 : e.created_at ≠ r.timestamp := by
          intro hcontra
          exact hm (hcontra ▸ hys r hrmem)
        omega
      · intro f hf t ht
        rw [hseen1] at ht
        rcases List.mem_append.mp ht with hold | hnew
        · exact hbound f (List.mem_cons_of_mem _ hf) t hold
        · rcases List.mem_singleton.mp hnew with rfl
          exact (List.pairwise_cons.mp hs).1 f hf



theorem foldl_types_origin (events : List NostrEvent) (s : LoopState) (n : String) :
    n ∈ (events.foldl stepEvent s).allSensorTypes ↔
      (n ∈ s.allSensorTypes ∨
        ∃ pre e post, events = pre ++ e :: post ∧ e.created_at ∉ s.seen ∧
          (∀ e' ∈ pre, e'.created_at ≠ e.created_at) ∧
          n ∈ (parseWeatherTags e.tags).2) := by
  induction events generalizing s with
  | nil =>
    simp only [List.foldl_nil]
    constructor
    · exact Or.inl
    · rintro (h | ⟨pre, e, post, heq, _⟩)
      · exact h
      · exact absurd heq (by simp)
  | cons e rest ih =>
    rw [List.foldl_cons]
    constructor
    · intro h
      rcases (ih (stepEvent s e)).mp h with hmem | ⟨pre, f, post, heq, hf, hpre, hn⟩
      · rcases stepEvent_types_super s e n hmem with hold | ⟨hm, hn⟩
        · exact Or.inl hold
        · exact Or.inr ⟨[], e, rest, rfl, hm, by simp, hn⟩
      · have hfe : f.created_at ≠ e.created_at := by
          intro hc
          exact hf (hc ▸ stepEvent_seen_self s e)
        have hfs : f.created_at ∉ s.seen := fun hc => hf (stepEvent_seen_sub s e _ hc)
        refine Or.inr ⟨e :: pre, f, post, by simp [heq], hfs, ?_, hn⟩
        intro e' he'
        rcases List.mem_cons.mp he' with rfl | hin
        · exact fun hc => hfe hc.symm
        · exact hpre e' hin
    · rintro (h | ⟨pre, f, post, heq, hf, hpre, hn⟩)
      · exact foldl_state_types_mono rest _ n (stepEvent_types_mono s e n h)
      · cases pre with
        | nil =>
          simp only [List.nil_append, List.cons.injEq] at heq
          obtain ⟨rfl, rfl⟩ := heq
          exact foldl_state_types_mono _ _ n (stepEvent_types_new s e n hf hn)
        | cons e0 pre' =>
          simp only [List.cons_append, List.cons.injEq] at heq
          obtain ⟨rfl, rfl⟩ := heq
          apply (ih (stepEvent s e)).mpr
          right
          refine ⟨pre', f, post, rfl, ?_, ?_, hn⟩
          · intro hc
            rcases stepEvent_seen_super s e _ hc with hold | hsame
            · exact hf hold
            · exact hpre e (List.mem_cons_self _ _) hsame.symm
          · exact fun e' he' => hpre e' (List.mem_cons_of_mem _ he')



/-- C2 counterexample: with E1 (zero parseable channels, its only tag
ignore-listed) preceding E2 (which parses a temperature channel) at the
same timestamp 1000, the Reading kept for that timestamp comes from E1 and
not from E2 — yet E2 is the first event whose parsed reading is non-empty
in the claim's sense of carrying at least one parsed channel.  The claim's
tie-break rule is therefore false of the code. -/
theorem c2_claim_counterexample :
    (parseWeatherTags [["e", "abc"]]).1 = { sensorModels := some [] } ∧
    (parseWeatherTags [["temp", "3"]]).1.temperature = some (3 : ℚ) ∧
    (processEvents eventsEmptyFirst).readings.map (fun r => r.eventId) = ["E1"] := by
  have habc : jsParseFloat "abc" = none := jsParseFloat_none _ rfl
  have h3 : jsParseFloat "3" = some (3 : ℚ) :=
    jsParseFloat_decimal _ _ _ 3 0 0 _ rfl rfl rfl rfl (by norm_num)
  refine ⟨?_, ?_, ?_⟩ <;>
    simp [eventsEmptyFirst, processEvents, stepEvent, processParsed, checkPM,
      parseWeatherTags, applyTag, tagName, tagValue, tagModel, keyCount, optCount, addAll,
      addSensorType, initState, habc, h3, IGNORED_TAGS, setModel, setExtra]

/-- C2 (amended): for every event list sorted by timestamp descending, the
output readings have strictly descending (hence pairwise distinct)
timestamps, and every reading originates in an input event (timestamp, id
and snapshot taken from it) that is the first event of the input carrying
its timestamp — regardless of whether that event's parsed reading is
empty, since the implemented non-emptiness guard never fails; in
particular in the shared-timestamp scenario only the earlier-listed event
B survives. -/
theorem c2_deduplicator (events : List NostrEvent)
    (hs : List.Pairwise (fun a b => b.created_at ≤ a.created_at) events) :
    List.Pairwise (· > ·) ((processEvents events).readings.map (fun r => r.timestamp)) ∧
    (∀ r ∈ (processEvents events).readings,
      ∃ pre e post, events = pre ++ e :: post ∧
        r.timestamp = e.created_at ∧ r.eventId = e.id ∧ r.rawEvent = e ∧
        (∀ e' ∈ pre, e'.created_at ≠ e.created_at)) ∧
    (processEvents eventsSameTs).readings.map (fun r => r.eventId) = ["B"] := by
  refine ⟨?_, ?_, ?_⟩
  · exact (foldl_sorted events initState hs (by simp [initState]) (by simp [initState])
      (fun e he t ht => by simp [initState] at ht)).1
  · intro r hr
    rcases foldl_origin events initState r hr with hmem |
      ⟨pre, e, post, heq, _, hts, hid, hraw, hpre, _⟩
    · simp [initState] at hmem
    · exact ⟨pre, e, post, heq, hts, hid, hraw, hpre⟩
  · have h2 : jsParseFloat "2" = some (2 : ℚ) :=
      jsParseFloat_decimal _ _ _ 2 0 0 _ rfl rfl rfl rfl (by norm_num)
    have h3 : jsParseFloat "3" = some (3 : ℚ) :=
      jsParseFloat_decimal _ _ _ 3 0 0 _ rfl rfl rfl rfl (by norm_num)
    simp [eventsSameTs, processEvents, stepEvent, processParsed, checkPM, parseWeatherTags,
      applyTag, tagName, tagValue, tagModel, keyCount, optCount, addAll, addSensorType,
      initState, h2, h3, IGNORED_TAGS, setModel, setExtra]

/-- C2 witness: the amended deduplication guarantees instantiated on the
concrete shared-timestamp scenario input. -/
theorem c2_witness :
    List.Pairwise (· > ·) ((processEvents eventsSameTs).readings.map (fun r => r.timestamp)) ∧
    ∀ r ∈ (processEvents eventsSameTs).readings,
      ∃ pre e post, eventsSameTs = pre ++ e :: post ∧
        r.timestamp = e.created_at ∧ r.eventId = e.id ∧ r.rawEvent = e ∧
        (∀ e' ∈ pre, e'.created_at ≠ e.created_at) :=
  ⟨(c2_deduplicator eventsSameTs (by simp [eventsSameTs])).1,
   (c2_deduplicator eventsSameTs (by simp [eventsSameTs])).2.1⟩



/-- C10: every materialized reading carries its particulate channels as
numbers: when the source event has no tag for a particulate channel the
stored value is 0 (indistinguishable from the suppression sentinel), while
temperature and humidity are copied as-is and stay undefined when their
tags are absent. -/
theorem c10_reading_channels (events : List NostrEvent) :
    ∀ r ∈ (processEvents events).readings,
      ∃ e, e ∈ events ∧ r.eventId = e.id ∧ r.timestamp = e.created_at ∧
        ((parseWeatherTags e.tags).1.pm1 = none → r.pm1 = 0) ∧
        ((parseWeatherTags e.tags).1.pm25 = none → r.pm25 = 0) ∧
        ((parseWeatherTags e.tags).1.pm10 = none → r.pm10 = 0) ∧
        r.temperature = (parseWeatherTags e.tags).1.temperature ∧
        r.humidity = (parseWeatherTags e.tags).1.humidity := by
  intro r hr
  rcases foldl_origin events initState r hr with hmem |
    ⟨pre, e, post, heq, _, hts, hid, hraw, _, hT, hH, h1, h2, h3⟩
  · simp [initState] at hmem
  · exact ⟨e, by simp [heq], hid, hts, h1, h2, h3, hT, hH⟩

/-- C10 witness: the reading materialized for a temperature-only event has
zeros in all three particulate channels and keeps temperature 3. -/
theorem c10_witness :
    ∃ e, e ∈ [eventTempOnly] ∧ tempOnlyReading.eventId = e.id ∧
      tempOnlyReading.timestamp = e.created_at ∧
      ((parseWeatherTags e.tags).1.pm1 = none → tempOnlyReading.pm1 = 0) ∧
      ((parseWeatherTags e.tags).1.pm25 = none → tempOnlyReading.pm25 = 0) ∧
      ((parseWeatherTags e.tags).1.pm10 = none → tempOnlyReading.pm10 = 0) ∧
      tempOnlyReading.temperature = (parseWeatherTags e.tags).1.temperature ∧
      tempOnlyReading.humidity = (parseWeatherTags e.tags).1.humidity := by
  have h3 : jsParseFloat "3" = some (3 : ℚ) :=
    jsParseFloat_decimal _ _ _ 3 0 0 _ rfl rfl rfl rfl (by norm_num)
  have hread : (processEvents [eventTempOnly]).readings = [tempOnlyReading] := by
    simp [eventTempOnly, tempOnlyReading, processEvents, stepEvent, processParsed, checkPM,
      parseWeatherTags, applyTag, tagName, tagValue, tagModel, keyCount, optCount, addAll,
      addSensorType, initState, h3, IGNORED_TAGS, setModel, setExtra]
  exact c10_reading_channels [eventTempOnly] tempOnlyReading (by rw [hread]; simp)



/-- C6 counterexample: with two events sharing a timestamp, the second
event's sensor type weird is observed in the fetch window and is not a
known channel, yet the inventory's unsupported list (and even its all
list) does not contain it — the inventory is not a partition of the union
over all events. -/
theorem c6_claim_counterexample :
    "weird" ∈ (parseWeatherTags [["weird", "2"]]).2 ∧
    "weird" ∉ KNOWN_SENSORS ∧
    "weird" ∉ (detectedSensors (processEvents eventsDupTs)).unsupported ∧
    "weird" ∉ (detectedSensors (processEvents eventsDupTs)).all := by
  have h1 : jsParseFloat "1" = some (1 : ℚ) :=
    jsParseFloat_decimal _ _ _ 1 0 0 _ rfl rfl rfl rfl (by norm_num)
  have h2 : jsParseFloat "2" = some (2 : ℚ) :=
    jsParseFloat_decimal _ _ _ 2 0 0 _ rfl rfl rfl rfl (by norm_num)
  have hrun : detectedSensors (processEvents eventsDupTs) = ⟨["temp"], [], ["temp"]⟩ := by
    simp [eventsDupTs, detectedSensors, processEvents, stepEvent, processParsed, checkPM,
      parseWeatherTags, applyTag, tagName, tagValue, tagModel, keyCount, optCount, addAll,
      addSensorType, initState, h1, h2, IGNORED_TAGS, setModel, setExtra, KNOWN_SENSORS]
  refine ⟨?_, by decide, ?_, ?_⟩
  · simp [parseWeatherTags, applyTag, tagName, tagValue, tagModel, h2, IGNORED_TAGS, setModel]
  · rw [hrun]; simp
  · rw [hrun]; simp

/-- C6 (amended): the sensor inventory is a partition of the sensor types
observed across the deduplicated events — the first event processed for
each distinct timestamp — with supported exactly the observed known names,
unsupported exactly the observed unknown names, the two disjoint, and all
their union. -/
theorem c6_inventory_amended (events : List NostrEvent) :
    (∀ name, name ∈ (detectedSensors (processEvents events)).supported ↔
      name ∈ (detectedSensors (processEvents events)).all ∧ name ∈ KNOWN_SENSORS) ∧
    (∀ name, name ∈ (detectedSensors (processEvents events)).unsupported ↔
      name ∈ (detectedSensors (processEvents events)).all ∧ name ∉ KNOWN_SENSORS) ∧
    (∀ name, ¬ (name ∈ (detectedSensors (processEvents events)).supported ∧
      name ∈ (detectedSensors (processEvents events)).unsupported)) ∧
    (∀ name, name ∈ (detectedSensors (processEvents events)).all ↔
      (name ∈ (detectedSensors (processEvents events)).supported ∨
        name ∈ (detectedSensors (processEvents events)).unsupported)) ∧
    (∀ name, name ∈ (detectedSensors (processEvents events)).all ↔
      ∃ pre e post, events = pre ++ e :: post ∧
        (∀ e' ∈ pre, e'.created_at ≠ e.created_at) ∧
        name ∈ (parseWeatherTags e.tags).2) := by
  have hsup : ∀ name, name ∈ (detectedSensors (processEvents events)).supported ↔
      name ∈ (processEvents events).allSensorTypes ∧ name ∈ KNOWN_SENSORS := by
    intro name
    simp [detectedSensors, List.mem_filter]
  have hunsup : ∀ name, name ∈ (detectedSensors (processEvents events)).unsupported ↔
      name ∈ (processEvents events).allSensorTypes ∧ name ∉ KNOWN_SENSORS := by
    intro name
    simp [detectedSensors, List.mem_filter]
  have hall : (detectedSensors (processEvents events)).all =
      (processEvents events).allSensorTypes := rfl
  refine ⟨fun name => by rw [hsup, hall], fun name => by rw [hunsup, hall], ?_, ?_, ?_⟩
  · intro name ⟨hs, hu⟩
    exact ((hunsup name).mp hu).2 ((hsup name).mp hs).2
  · intro name
    rw [hsup, hunsup, hall]
    by_cases hk : name ∈ KNOWN_SENSORS
    · simp [hk]
    · simp [hk]
  · intro name
    rw [hall]
    rw [show (processEvents events).allSensorTypes =
      (events.foldl stepEvent initState).allSensorTypes from rfl]
    rw [foldl_types_origin]
    simp [initState]

/-- C6 witness: the amended characterization instantiated to show temp is
observed on the concrete duplicate-timestamp input. -/
theorem c6_witness :
    "temp" ∈ (detectedSensors (processEvents eventsDupTs)).all := by
  have h1 : jsParseFloat "1" = some (1 : ℚ) :=
    jsParseFloat_decimal _ _ _ 1 0 0 _ rfl rfl rfl rfl (by norm_num)
  apply ((c6_inventory_amended eventsDupTs).2.2.2.2 "temp").mpr
  refine ⟨[], ⟨"a", 1000, [["temp", "1"]]⟩, [⟨"b", 1000, [["weird", "2"]]⟩],
    rfl, by simp, ?_⟩
  simp [parseWeatherTags, applyTag, tagName, tagValue, tagModel, h1, IGNORED_TAGS, setModel]



/-- C4: the event whose only tag is ignore-listed contributes zero
parseable channels, yet the pipeline materializes a Reading for it, with
all three particulate channels stored as 0 — the parsed object always
contains the sensorModels key, so the non-empty guard never fails and the
empty partial reading is not discarded. -/
theorem c4_empty_reading_materialized :
    (parseWeatherTags eventNoChannels.tags).2 = [] ∧
    (parseWeatherTags eventNoChannels.tags).1.temperature = none ∧
    (parseWeatherTags eventNoChannels.tags).1.pm25 = none ∧
    (processEvents [eventNoChannels]).readings =
      [{ temperature := none, humidity := none, pm1 := 0, pm25 := 0, pm10 := 0,
         air_quality := none, pressure := none, light := none, rain := none,
         extra := [], sensorModels := [], timestamp := 500, eventId := "x",
         rawEvent := eventNoChannels }] := by
  have habc : jsParseFloat "abc" = none := jsParseFloat_none _ rfl
  refine ⟨?_, ?_, ?_, ?_⟩ <;>
    simp [eventNoChannels, processEvents, stepEvent, processParsed, checkPM,
      parseWeatherTags, applyTag, tagName, tagValue, tagModel, keyCount, optCount, addAll,
      addSensorType, initState, habc, IGNORED_TAGS, setModel, setExtra]

/-- C5 counterexample: on the scenario input the single flag's reason
cites the newer accepted value 11 as baseline (ratio 7.3), not the
value 12 from the claim. -/
theorem c5_claim_counterexample :
    (processEvents eventsPm25Scenario).flagged.map (fun f => f.reason) =
      ["Value is 7.3x previous reading (11.0 µg/m³)"] ∧
    "Value is 6.7x previous reading (12.0 µg/m³)" ∉
      (processEvents eventsPm25Scenario).flagged.map (fun f => f.reason) := by
  have h11 : jsParseFloat "11" = some (11 : ℚ) :=
    jsParseFloat_decimal _ _ _ 11 0 0 _ rfl rfl rfl rfl (by norm_num)
  have h80 : jsParseFloat "80" = some (80 : ℚ) :=
    jsParseFloat_decimal _ _ _ 80 0 0 _ rfl rfl rfl rfl (by norm_num)
  have h12 : jsParseFloat "12" = some (12 : ℚ) :=
    jsParseFloat_decimal _ _ _ 12 0 0 _ rfl rfl rfl rfl (by norm_num)
  have h10 : jsParseFloat "10" = some (10 : ℚ) :=
    jsParseFloat_decimal _ _ _ 10 0 0 _ rfl rfl rfl rfl (by norm_num)
  have t1 : toFixed1 ((80 : ℚ) / 11) = "7.3" := by
    rw [toFixed1_eq _ 73 (by norm_num)]; rfl
  have t2 : toFixed1 (11 : ℚ) = "11.0" := by
    rw [toFixed1_eq _ 110 (by norm_num)]; rfl
  have q1 : (0 : ℚ) < 11 := by norm_num
  have q2 : (0 : ℚ) < 12 := by norm_num
  have q3 : (0 : ℚ) < 10 := by norm_num
  have q4 : (11 : ℚ) * 5 < 80 := by norm_num
  have q5 : ¬ (11 : ℚ) * 5 < 12 := by norm_num
  have q6 : ¬ (12 : ℚ) * 5 < 10 := by norm_num
  have hflag : (processEvents eventsPm25Scenario).flagged.map (fun f => f.reason) =
      ["Value is 7.3x previous reading (11.0 µg/m³)"] := by
    simp [eventsPm25Scenario, processEvents, stepEvent, processParsed, checkPM,
      parseWeatherTags, applyTag, tagName, tagValue, tagModel, keyCount, optCount, addAll,
      addSensorType, initState, h11, h80, h12, h10, t1, t2, q1, q2, q3, q4, q5, q6,
      IGNORED_TAGS, setModel, setExtra]
  refine ⟨hflag, ?_⟩
  rw [hflag]
  simp

/-- C5 (amended): processed newest-first, the detector accepts 11 first
(baseline none to 11), flags 80 against baseline 11 (80 exceeds 55) with
reason ratio 7.3 and replaces it with 0, then accepts 12 and finally 10,
leaving 10 as the last valid value. -/
theorem c5_pm25_scenario_amended :
    (processEvents eventsPm25Scenario).readings.map (fun r => r.pm25) = [11, 0, 12, 10] ∧
    (processEvents eventsPm25Scenario).flagged =
      [{ sensor := "PM2.5", value := 80, timestamp := 3000, eventId := "b",
         rawEvent := ⟨"b", 3000, [["pm25", "80"]]⟩,
         reason := "Value is 7.3x previous reading (11.0 µg/m³)" }] ∧
    (processEvents eventsPm25Scenario).previousPM25 = some 10 := by
  have h11 : jsParseFloat "11" = some (11 : ℚ) :=
    jsParseFloat_decimal _ _ _ 11 0 0 _ rfl rfl rfl rfl (by norm_num)
  have h80 : jsParseFloat "80" = some (80 : ℚ) :=
    jsParseFloat_decimal _ _ _ 80 0 0 _ rfl rfl rfl rfl (by norm_num)
  have h12 : jsParseFloat "12" = some (12 : ℚ) :=
    jsParseFloat_decimal _ _ _ 12 0 0 _ rfl rfl rfl rfl (by norm_num)
  have h10 : jsParseFloat "10" = some (10 : ℚ) :=
    jsParseFloat_decimal _ _ _ 10 0 0 _ rfl rfl rfl rfl (by norm_num)
  have t1 : toFixed1 ((80 : ℚ) / 11) = "7.3" := by
    rw [toFixed1_eq _ 73 (by norm_num)]; rfl
  have t2 : toFixed1 (11 : ℚ) = "11.0" := by
    rw [toFixed1_eq _ 110 (by norm_num)]; rfl
  have q1 : (0 : ℚ) < 11 := by norm_num
  have q2 : (0 : ℚ) < 12 := by norm_num
  have q3 : (0 : ℚ) < 10 := by norm_num
  have q4 : (11 : ℚ) * 5 < 80 := by norm_num
  have q5 : ¬ (11 : ℚ) * 5 < 12 := by norm_num
  have q6 : ¬ (12 : ℚ) * 5 < 10 := by norm_num
  refine ⟨?_, ?_, ?_⟩ <;>
    simp [eventsPm25Scenario, processEvents, stepEvent, processParsed, checkPM,
      parseWeatherTags, applyTag, tagName, tagValue, tagModel, keyCount, optCount, addAll,
      addSensorType, initState, h11, h80, h12, h10, t1, t2, q1, q2, q3, q4, q5, q6,
      IGNORED_TAGS, setModel, setExtra]

end Weather
